import Mathlib

/-!
Verification of the Intervals periodic timer (src/src/main.cpp).

The development shallowly embeds the two components of the program:

* `TimeDurations` — the statistics collector: a vector of `duration`
  samples (modelled as `Int` nanosecond counts, the `steady_clock`
  representation) plus running extrema, with `insert`, `smallest`,
  `largest`, `average` and `median` exactly as in the source.  Note that
  the C++ constructor is `jitters_(ITERATION_MAX)`, which value-initializes
  a vector of 400 zero durations (it does not merely reserve capacity);
  the embedding reproduces that.

* `PeriodicTimer` — the scheduling loops `doItCount` and `doItTimed`.
  Both loops share the same per-iteration body; the embedding factors it
  as `loopStep` and folds it.  Clock readings (`my_clock::now()`) and the
  random jitter draws are external inputs, supplied as streams
  `times, jitters : Nat → Int`; `t0` is the `now()` stored into
  `firstInterval_` and `tExit` the `now()` read after the loop of
  `doItCount`.  For `doItTimed` the number of iterations executed before
  the `is_running_` flag is observed false is an external parameter.
-/

/-- Constant INTERVAL_PERIOD from main.cpp: `resolution(10000000)` nanoseconds. -/
def INTERVAL_PERIOD : Int := 10000000

/-- Constant JITTER_MIN from main.cpp (nanoseconds). -/
def JITTER_MIN : Int := 100000

/-- Constant JITTER_MAX from main.cpp (nanoseconds). -/
def JITTER_MAX : Int := 1000000

/-- Constant ITERATION_MAX from main.cpp. -/
def ITERATION_MAX : Nat := 400

/-- Value of `resolution::max()`: the largest `int64_t` tick count. -/
def durationMax : Int := 9223372036854775807

/-- Value of `resolution::min()`: the smallest `int64_t` tick count. -/
def durationMin : Int := -9223372036854775808

/-- The state of the `TimeDurations` statistics collector: the sample
vector `jitters_` and the running extrema `smallest_` and `largest_`. -/
structure TimeDurations where
  jitters_ : List Int
  smallest_ : Int
  largest_ : Int
deriving Repr, DecidableEq

namespace TimeDurations

/-- The constructor `TimeDurations()`: `jitters_(ITERATION_MAX)`
value-initializes the vector with 400 zero durations, and the extrema
start at `resolution::max()` and `resolution::min()`. -/
def new : TimeDurations :=
  { jitters_ := List.replicate ITERATION_MAX 0
  , smallest_ := durationMax
  , largest_ := durationMin }

/-- Method `TimeDurations::insert`: push the sample onto the vector and update
the running extrema. -/
def insert (td : TimeDurations) (j : Int) : TimeDurations :=
  { jitters_ := td.jitters_ ++ [j]
  , smallest_ := if j < td.smallest_ then j else td.smallest_
  , largest_ := if j > td.largest_ then j else td.largest_ }

/-- Method `TimeDurations::average`: a left fold summing the whole vector,
then `result /= jitters_.size()`, which is `int64_t` division truncating
toward zero (`Int.div`). -/
def average (td : TimeDurations) : Int :=
  (td.jitters_.foldl (· + ·) 0).tdiv (td.jitters_.length : Int)

/-- Method `TimeDurations::largest`. -/
def largest (td : TimeDurations) : Int := td.largest_

/-- Method `TimeDurations::smallest`. -/
def smallest (td : TimeDurations) : Int := td.smallest_

/-- The value returned by `TimeDurations::median`: `std::sort` the
vector ascending and return `jitters_[jitters_.size() / 2]`. -/
def median (td : TimeDurations) : Int :=
  (td.jitters_.insertionSort (· ≤ ·)).getD (td.jitters_.length / 2) 0

/-- The state left behind by `TimeDurations::median`: `std::sort` runs
in place, so the vector is left sorted. -/
def medianState (td : TimeDurations) : TimeDurations :=
  { td with jitters_ := td.jitters_.insertionSort (· ≤ ·) }

end TimeDurations

/-- Insert a list of samples in order (repeated `TimeDurations::insert`). -/
def insertAll (td : TimeDurations) (ds : List Int) : TimeDurations :=
  ds.foldl TimeDurations.insert td

/-- The branch condition guarding the end-of-iteration wait in both loops:
`currentTime < startNext` where `startNext = start + INTERVAL_PERIOD`.
When it holds the loop executes `sleep_until(startNext)`; otherwise it
prints the "Missed interval" warning. -/
def waitsForNextInterval (start currentTime : Int) : Bool :=
  currentTime < start + INTERVAL_PERIOD

/-- Modelled from the spec: the per-iteration test the spec prescribes,
"If `now() < targetTime`, sleep until `targetTime`; else count a missed
interval", with `targetTime = currentIntervalStart + jitter`.  Declared
only to compare the spec's description with the source's
`waitsForNextInterval`. -/
def specSleepsUntilJitterTarget (currentIntervalStart jitter now : Int) : Bool :=
  now < currentIntervalStart + jitter

/-- Modelled from the spec: the duration the spec says is inserted each
iteration, "record `now()` as the action's start instant; invoke
`action(jitter)`; record `now()` as the action's end instant; insert
`end - start`".  Declared only to compare with what the source inserts. -/
def specActionDuration (actionStart actionEnd : Int) : Int :=
  actionEnd - actionStart

/-- The per-iteration mutable state shared by `doItCount` and
`doItTimed`: the schedule variables `start` and `startNext`, the
internal statistics collector, the number of "Missed interval" warnings
emitted so far, and the list of jitter arguments passed to `doIt`, in
invocation order. -/
structure SchedState where
  start : Int
  startNext : Int
  durations : TimeDurations
  missed : Nat
  calls : List Int
deriving Repr

/-- One iteration of the loop body shared by `doItCount` and `doItTimed`
(main.cpp lines 183-216 and 103-141): sleep for `jitter`, call
`doIt(jitter)`, set `startNext = start + INTERVAL_PERIOD`, read
`currentTime = now()` (the external input `t`), insert
`currentTime - start` into the collector, wait until `startNext` when
`currentTime < startNext` and otherwise warn about a missed interval,
then `start = startNext`. -/
def loopStep (jitter t : Int) (s : SchedState) : SchedState :=
  let sn := s.start + INTERVAL_PERIOD
  { start := sn
  , startNext := sn
  , durations := s.durations.insert (t - s.start)
  , missed := if waitsForNextInterval s.start t then s.missed else s.missed + 1
  , calls := s.calls ++ [jitter] }

/-- Run `n` iterations of the shared loop body.  `jitters i` is the
random draw used by iteration `i` and `times i` the `now()` it reads
after `doIt` returns. -/
def runN (jitters times : Nat → Int) : Nat → SchedState → SchedState
  | 0, s => s
  | n + 1, s =>
      runN (fun i => jitters (i + 1)) (fun i => times (i + 1)) n
        (loopStep (jitters 0) (times 0) s)

/-- The initial loop state of either run: `firstInterval_ = now()` is
`t0`, and `start` and `startNext` are initialized to it; the collector
is freshly constructed. -/
def initState (t0 : Int) : SchedState :=
  { start := t0
  , startNext := t0
  , durations := TimeDurations.new
  , missed := 0
  , calls := [] }

/-- The observable outcome of a run: the final loop state, the
`firstInterval_` and `lastInterval_` fields, and the iteration count
(`itr` for `doItCount`, the returned `result` for `doItTimed`). -/
structure RunResult where
  final : SchedState
  firstInterval_ : Int
  lastInterval_ : Int
  result : Nat
deriving Repr

namespace PeriodicTimer

/-- Method `PeriodicTimer::doItCount` (main.cpp lines 168-232): run the loop
body exactly `repeat_count` times, then set
`lastInterval_ = my_clock::now()` — the external reading `tExit` taken
after the loop exits (line 219). -/
def doItCount (t0 : Int) (jitters times : Nat → Int) (repeat_count : Nat)
    (tExit : Int) : RunResult :=
  let fin := runN jitters times repeat_count (initState t0)
  { final := fin
  , firstInterval_ := t0
  , lastInterval_ := tExit
  , result := repeat_count }

/-- Method `PeriodicTimer::doItTimed` (main.cpp lines 90-159): the same loop
body gated by the `is_running_` flag; `k` is the number of iterations
executed before the flag is observed false.  On exit
`lastInterval_ = startNext` (line 144) and the iteration count is
returned. -/
def doItTimed (t0 : Int) (jitters times : Nat → Int) (k : Nat) : RunResult :=
  let fin := runN jitters times k (initState t0)
  { final := fin
  , firstInterval_ := t0
  , lastInterval_ := fin.startNext
  , result := k }

end PeriodicTimer

lemma foldl_add_eq (l : List Int) (x : Int) : l.foldl (· + ·) x = x + l.sum := by
  induction l generalizing x with
  | nil => simp
  | cons a l ih => simp [List.foldl_cons, ih, add_assoc]

lemma runN_start (n : Nat) : ∀ (jitters times : Nat → Int) (s : SchedState),
    (runN jitters times n s).start = s.start + n * INTERVAL_PERIOD := by
  induction n with
  | zero => intro j t s; simp [runN]
  | succ n ih =>
      intro j t s
      rw [runN, ih]
      simp only [loopStep]
      push_cast
      ring

lemma runN_calls (n : Nat) : ∀ (jitters times : Nat → Int) (s : SchedState),
    (runN jitters times n s).calls = s.calls ++ (List.range n).map jitters := by
  induction n with
  | zero => intro j t s; simp [runN]
  | succ n ih =>
      intro j t s
      rw [runN, ih]
      simp [loopStep, List.range_succ_eq_map, List.map_map, Function.comp]

lemma runN_durations (n : Nat) : ∀ (jitters times : Nat → Int) (s : SchedState),
    (runN jitters times n s).durations.jitters_
      = s.durations.jitters_
        ++ (List.range n).map
            (fun i => times i - (s.start + (i : Int) * INTERVAL_PERIOD)) := by
  induction n with
  | zero => intro j t s; simp [runN]
  | succ n ih =>
      intro j t s
      rw [runN, ih]
      simp only [loopStep, TimeDurations.insert, List.range_succ_eq_map,
        List.map_map, List.map_cons, List.append_assoc, List.singleton_append]
      congr 1
      congr 1
      · push_cast; ring_nf
      · apply List.map_congr_left
        intro i _
        simp only [Function.comp]
        push_cast
        ring

lemma runN_missed (n : Nat) : ∀ (jitters times : Nat → Int) (s : SchedState),
    (runN jitters times n s).missed
      = s.missed + ((List.range n).filter
          (fun (i : Nat) => !waitsForNextInterval (s.start + (i : Int) * INTERVAL_PERIOD)
            (times i))).length := by
  induction n with
  | zero => intro j t s; simp [runN]
  | succ n ih =>
      intro j t s
      rw [runN, ih]
      simp only [loopStep, List.range_succ_eq_map, List.filter_cons,
        List.filter_map, List.length_map, List.map_map]
      have hcong : ((List.range n).filter
            (fun (i : Nat) => !waitsForNextInterval ((s.start + INTERVAL_PERIOD)
              + (i : Int) * INTERVAL_PERIOD) (t (i + 1))))
          = ((List.range n).filter ((fun (i : Nat) => !waitsForNextInterval
              (s.start + (i : Int) * INTERVAL_PERIOD) (t i)) ∘ Nat.succ)) := by
        apply List.filter_congr
        intro i _
        simp only [Function.comp, Nat.succ_eq_add_one]
        have harith : s.start + INTERVAL_PERIOD + (i : Int) * INTERVAL_PERIOD
            = s.start + ((i + 1 : Nat) : Int) * INTERVAL_PERIOD := by push_cast; ring
        rw [harith]
      by_cases h : waitsForNextInterval s.start (t 0)
      · simp [h, hcong]
      · simp [h, hcong]
        omega

/-- C1 (counterexample): a concrete bounded run with `repeatCount = 1`
starting at `t0 = 0` where the iteration draws jitter 500000, observes
`now() = 600000` after the action, and the `now()` read at line 219 is
10000005: the schedule variable has advanced to exactly
`intervalFirst + 1 * INTERVAL_PERIOD` but `intervalLast` is the exit
`now()` 10000005, not `0 + 1 * INTERVAL_PERIOD`. -/
theorem doItCount_lastInterval_not_schedule_position :
    (PeriodicTimer.doItCount 0 (fun _ => 500000) (fun _ => 600000) 1
        10000005).lastInterval_
      ≠ 0 + 1 * INTERVAL_PERIOD
    ∧ (PeriodicTimer.doItCount 0 (fun _ => 500000) (fun _ => 600000) 1
        10000005).final.start
      = 0 + 1 * INTERVAL_PERIOD := by
  constructor
  · decide
  · decide

/-- C1 (amended): in bounded mode with `repeatCount = N` the action is
invoked exactly `N` times, receiving the drawn jitters in order, and the
schedule variable `start` (`currentIntervalStart`) advances by exactly
`N * INTERVAL_PERIOD` from `intervalFirst`, independent of the clock
readings (so of how long each action invocation takes); `intervalLast`,
however, is assigned the `now()` read after the loop (`tExit`), not the
final schedule position. -/
theorem doItCount_invokes_N_and_is_drift_free (t0 : Int)
    (jitters times : Nat → Int) (N : Nat) (tExit : Int) :
    (PeriodicTimer.doItCount t0 jitters times N tExit).final.calls.length = N
    ∧ (PeriodicTimer.doItCount t0 jitters times N tExit).final.calls
        = (List.range N).map jitters
    ∧ (PeriodicTimer.doItCount t0 jitters times N tExit).final.start
        = t0 + N * INTERVAL_PERIOD
    ∧ (PeriodicTimer.doItCount t0 jitters times N tExit).firstInterval_ = t0
    ∧ (PeriodicTimer.doItCount t0 jitters times N tExit).lastInterval_ = tExit := by
  refine ⟨?_, ?_, ?_, rfl, rfl⟩ <;>
    simp [PeriodicTimer.doItCount, runN_calls, runN_start, initState]

/-- C2 (counterexample): in the concrete run of
`doItCount_lastInterval_not_schedule_position`'s shape where the action
starts at instant 500000 (right after the jitter sleep) and returns at
instant 500000 (its own execution takes zero time, `now()` after it is
500000), the value the code inserts into the collector is
`currentTime - start = 500000`, not the action's execution time
`end - start = 0` that the spec describes. -/
theorem inserted_duration_is_not_action_duration :
    (PeriodicTimer.doItCount 0 (fun _ => 500000) (fun _ => 500000) 1
        10000005).final.durations.jitters_.getD 400 0 = 500000
    ∧ specActionDuration 500000 500000 = 0
    ∧ (PeriodicTimer.doItCount 0 (fun _ => 500000) (fun _ => 500000) 1
        10000005).final.durations.jitters_.getD 400 0
      ≠ specActionDuration 500000 500000 := by
  refine ⟨?_, ?_, ?_⟩ <;> decide

/-- C2 (amended): in every iteration of either run mode the duration
inserted into the internal collector is `currentTime - start`: the
`now()` read once after the action returns minus the iteration's
scheduled interval start — it includes the jitter sleep and loop
overhead, not only the action's execution time. -/
theorem inserted_durations_are_elapsed_from_interval_start (t0 : Int)
    (jitters times : Nat → Int) (N k : Nat) (tExit : Int) :
    (PeriodicTimer.doItCount t0 jitters times N tExit).final.durations.jitters_
      = List.replicate ITERATION_MAX 0
        ++ (List.range N).map
            (fun (i : Nat) => times i - (t0 + (i : Int) * INTERVAL_PERIOD))
    ∧ (PeriodicTimer.doItTimed t0 jitters times k).final.durations.jitters_
      = List.replicate ITERATION_MAX 0
        ++ (List.range k).map
            (fun (i : Nat) => times i - (t0 + (i : Int) * INTERVAL_PERIOD)) := by
  constructor <;>
    simp [PeriodicTimer.doItCount, PeriodicTimer.doItTimed, runN_durations,
      initState, TimeDurations.new]

/-- C3 (counterexample): with `currentIntervalStart = 0`, jitter 500000
and `now() = 600000` the spec's pre-action test says the jittered target
has already passed (no sleep, count a missed interval), but the code's
end-of-iteration branch compares against
`currentIntervalStart + INTERVAL_PERIOD`, sleeps, and counts no miss: the
concrete one-iteration run records zero missed intervals. -/
theorem missed_check_uses_period_not_jitter_target :
    waitsForNextInterval 0 600000 = true
    ∧ specSleepsUntilJitterTarget 0 500000 600000 = false
    ∧ (PeriodicTimer.doItCount 0 (fun _ => 500000) (fun _ => 600000) 1
        10000005).final.missed = 0 := by
  refine ⟨?_, ?_, ?_⟩ <;> decide

/-- C3 (amended): in every iteration of either run mode the scheduler
first sleeps for the jitter unconditionally and invokes the action; it
then compares the post-action `now()` against
`currentIntervalStart + INTERVAL_PERIOD`: if `now()` is earlier it
sleeps until that next interval start, otherwise it only records a
missed interval; a miss never aborts the loop — all iterations still
execute and the action is still invoked once per iteration. -/
theorem missed_intervals_only_counted_never_abort (t0 : Int)
    (jitters times : Nat → Int) (N k : Nat) (tExit : Int) :
    (PeriodicTimer.doItCount t0 jitters times N tExit).final.missed
      = ((List.range N).filter
          (fun (i : Nat) => !waitsForNextInterval
            (t0 + (i : Int) * INTERVAL_PERIOD) (times i))).length
    ∧ (PeriodicTimer.doItCount t0 jitters times N tExit).final.calls.length = N
    ∧ (PeriodicTimer.doItTimed t0 jitters times k).final.missed
      = ((List.range k).filter
          (fun (i : Nat) => !waitsForNextInterval
            (t0 + (i : Int) * INTERVAL_PERIOD) (times i))).length
    ∧ (PeriodicTimer.doItTimed t0 jitters times k).final.calls.length = k := by
  refine ⟨?_, ?_, ?_, ?_⟩ <;>
    simp [PeriodicTimer.doItCount, PeriodicTimer.doItTimed, runN_missed,
      runN_calls, initState]

set_option maxRecDepth 4000

/-- C4 (code evaluated at the failing input): inserting the single
sample 401 ns into a freshly constructed collector gives
`smallest = largest = 401` but `average = 1` and `median = 0`, because
the constructor `jitters_(ITERATION_MAX)` pre-populates 400 zero
samples: the sum 401 is divided by 401 and the sorted vector's middle
element is one of the zeros. -/
theorem single_sample_queries_disagree :
    (TimeDurations.new.insert 401).smallest = 401
    ∧ (TimeDurations.new.insert 401).largest = 401
    ∧ (TimeDurations.new.insert 401).average = 1
    ∧ (TimeDurations.new.insert 401).median = 0 := by
  refine ⟨?_, ?_, ?_, ?_⟩ <;> decide

/-- C5 (code evaluated at the failing input): on a fresh collector,
after inserting exactly the samples 1, 2, 3, 4 ns, `median()` returns 0,
not 3: the vector holds the 400 pre-populated zeros plus the four
samples, so the sorted snapshot has 404 elements and index 202 holds a
zero. -/
theorem median_of_one_two_three_four :
    (insertAll TimeDurations.new [1, 2, 3, 4]).median = 0
    ∧ (insertAll TimeDurations.new [1, 2, 3, 4]).median ≠ 3
    ∧ (insertAll TimeDurations.new [1, 2, 3, 4]).jitters_.length = 404 := by
  refine ⟨?_, ?_, ?_⟩ <;> decide

/-- C6 (code evaluated at the failing input): after inserting exactly
the samples 7 and 9 ns into a fresh collector, `average()` returns 0,
not `(7 + 9) / 2 = 8`: the sum 16 is divided by the vector size 402,
which counts the 400 pre-populated zeros. -/
theorem average_of_seven_and_nine :
    (insertAll TimeDurations.new [7, 9]).average = 0
    ∧ (insertAll TimeDurations.new [7, 9]).average ≠ 8
    ∧ (insertAll TimeDurations.new [7, 9]).jitters_.length = 402 := by
  refine ⟨?_, ?_, ?_⟩ <;> decide

/-- C7 (code evaluated at the failing input): after inserting the single
sample 5 ns, `smallest()` returns 5 while `median()` and `average()`
return 0, so neither `smallest <= median` nor `smallest <= average`
holds. -/
theorem extrema_median_order_violated :
    (TimeDurations.new.insert 5).smallest = 5
    ∧ (TimeDurations.new.insert 5).median = 0
    ∧ (TimeDurations.new.insert 5).average = 0
    ∧ ¬ (TimeDurations.new.insert 5).smallest ≤ (TimeDurations.new.insert 5).median
    ∧ ¬ (TimeDurations.new.insert 5).smallest ≤ (TimeDurations.new.insert 5).average := by
  refine ⟨?_, ?_, ?_, ?_, ?_⟩ <;> decide

/-- C9 (counterexample): querying a freshly constructed collector into
which nothing was ever inserted raises no error: `average()` and
`median()` return the ordinary duration 0 — computed over the 400
pre-populated zero samples — rather than surfacing an error to the
caller. -/
theorem fresh_collector_queries_return_values :
    TimeDurations.new.average = 0 ∧ TimeDurations.new.median = 0 := by
  constructor <;> decide

/-- C9 (amended): on a collector with zero inserted samples every query
is total and returns an ordinary duration: `average() = 0` and
`median() = 0` (over the 400 pre-populated zeros), and the extrema are
the initialization sentinels `resolution::max()` and
`resolution::min()`. -/
theorem fresh_collector_queries_total :
    TimeDurations.new.average = 0
    ∧ TimeDurations.new.median = 0
    ∧ TimeDurations.new.smallest = durationMax
    ∧ TimeDurations.new.largest = durationMin
    ∧ durationMax = 9223372036854775807
    ∧ durationMin = -9223372036854775808 := by
  refine ⟨?_, ?_, rfl, rfl, rfl, rfl⟩ <;> decide

lemma insertAll_jitters (ds : List Int) : ∀ td : TimeDurations,
    (insertAll td ds).jitters_ = td.jitters_ ++ ds := by
  induction ds with
  | nil => intro td; simp [insertAll]
  | cons d ds ih =>
      intro td
      simp only [insertAll, List.foldl_cons] at ih ⊢
      rw [ih]
      simp [TimeDurations.insert]

lemma insertAll_smallest_eq (ds : List Int) : ∀ td₁ td₂ : TimeDurations,
    td₁.smallest_ = td₂.smallest_ →
    (insertAll td₁ ds).smallest_ = (insertAll td₂ ds).smallest_ := by
  induction ds with
  | nil => intro td₁ td₂ h; simpa [insertAll] using h
  | cons d ds ih =>
      intro td₁ td₂ h
      simp only [insertAll, List.foldl_cons] at ih ⊢
      exact ih _ _ (by simp [TimeDurations.insert, h])

lemma insertAll_largest_eq (ds : List Int) : ∀ td₁ td₂ : TimeDurations,
    td₁.largest_ = td₂.largest_ →
    (insertAll td₁ ds).largest_ = (insertAll td₂ ds).largest_ := by
  induction ds with
  | nil => intro td₁ td₂ h; simpa [insertAll] using h
  | cons d ds ih =>
      intro td₁ td₂ h
      simp only [insertAll, List.foldl_cons] at ih ⊢
      exact ih _ _ (by simp [TimeDurations.insert, h])

lemma insertionSort_eq_of_perm {l₁ l₂ : List Int} (h : l₁.Perm l₂) :
    l₁.insertionSort (· ≤ ·) = l₂.insertionSort (· ≤ ·) :=
  List.eq_of_perm_of_sorted
    ((List.perm_insertionSort _ l₁).trans
      (h.trans (List.perm_insertionSort _ l₂).symm))
    (List.sorted_insertionSort _ l₁) (List.sorted_insertionSort _ l₂)

/-- C8: the in-place `std::sort` performed by `median()` is unobservable
through the collector's interface: starting from the post-`median`
state, any further sequence of `insert`s followed by any of the four
queries returns exactly what it would have returned starting from the
pre-`median` state (the vector is only permuted, and every query result
depends only on the sample multiset and the extrema fields). -/
theorem median_state_change_unobservable (s : TimeDurations) (ds : List Int) :
    (insertAll s.medianState ds).smallest = (insertAll s ds).smallest
    ∧ (insertAll s.medianState ds).largest = (insertAll s ds).largest
    ∧ (insertAll s.medianState ds).average = (insertAll s ds).average
    ∧ (insertAll s.medianState ds).median = (insertAll s ds).median := by
  have hperm : (insertAll s.medianState ds).jitters_.Perm
      (insertAll s ds).jitters_ := by
    rw [insertAll_jitters, insertAll_jitters]
    exact (List.perm_insertionSort _ s.jitters_).append_right ds
  refine ⟨?_, ?_, ?_, ?_⟩
  · exact insertAll_smallest_eq ds _ _ rfl
  · exact insertAll_largest_eq ds _ _ rfl
  · unfold TimeDurations.average
    rw [foldl_add_eq, foldl_add_eq, hperm.sum_eq, hperm.length_eq]
  · unfold TimeDurations.median
    rw [insertionSort_eq_of_perm hperm, hperm.length_eq]

/-- C10: the constructor pre-populates the sample vector with
`ITERATION_MAX = 400` zero durations, so on a fresh collector — and
after any sequence of inserted samples `ds` — the vector has
`400 + ds.length > 0` elements: `average()` never divides by zero,
`median()`'s index `size / 2` is always in bounds, and the 400 zeros
take part in every computation: the vector is literally the 400 zeros
followed by the inserted samples, and `average()` divides the sum of the
inserted samples by `400 + ds.length`. -/
theorem fresh_collector_prepopulated_zeros :
    TimeDurations.new.jitters_ = List.replicate 400 0
    ∧ ITERATION_MAX = 400
    ∧ ∀ ds : List Int,
        (insertAll TimeDurations.new ds).jitters_
          = List.replicate 400 0 ++ ds
        ∧ (insertAll TimeDurations.new ds).jitters_.length = 400 + ds.length
        ∧ 0 < (insertAll TimeDurations.new ds).jitters_.length
        ∧ (insertAll TimeDurations.new ds).average
            = (ds.sum).tdiv ((400 + ds.length : Nat) : Int)
        ∧ (insertAll TimeDurations.new ds).jitters_.length / 2
            < (insertAll TimeDurations.new ds).jitters_.length := by
  refine ⟨rfl, rfl, ?_⟩
  intro ds
  have hj : (insertAll TimeDurations.new ds).jitters_
      = List.replicate 400 0 ++ ds := by
    rw [insertAll_jitters]; rfl
  have hlen : (insertAll TimeDurations.new ds).jitters_.length
      = 400 + ds.length := by
    rw [hj, List.length_append, List.length_replicate]
  refine ⟨hj, hlen, by omega, ?_, by omega⟩
  unfold TimeDurations.average
  rw [foldl_add_eq, hj, List.sum_append, List.sum_replicate,
    List.length_append, List.length_replicate, smul_zero, zero_add, zero_add]
